import Mathlib

/-!
# Verification of the lead enrichment and quality-reconciliation engine

Shallow embedding of the decision logic of `src/lib/nodes/SearchNode.js`,
`src/lib/nodes/EnrichNode.js` and `src/lib/llm-enricher.js`.

Modelling conventions:
* JavaScript strings are Lean `String`s; a missing field (`undefined`/`null`)
  on a string-typed field is modelled as the empty string when the source only
  ever distinguishes it through truthiness, and as `Option String` when the
  source distinguishes "absent" from "present" in other ways.
* `str.includes(pat)` is infix search on the character list.
* `str.substring(0, n)` is `take` on the character list.
* Asynchronous provider calls (search, content fetch, LLM completion) are
  supplied by explicit oracle records; throwing providers are modelled with
  `Except`.
* Numbers used as confidence scores are modelled as rationals; the operations
  involved (`Math.max`, `Math.min`, `+ 0.1`) are monotone in both the float
  and the rational reading.
-/

namespace JimDwight

/-- JS `s.includes(pat)`: `pat` occurs as a contiguous substring of `s`. -/
def jsIncludes (s pat : String) : Bool :=
  decide (pat.data <:+: s.data)

/-- JS `s.substring(0, n)` (for `n ≥ 0`): the first `n` characters of `s`. -/
def jsSubstringTo (s : String) (n : Nat) : String :=
  ⟨s.data.take n⟩

/-- JS `s.startsWith(pat)`. -/
def jsStartsWith (s pat : String) : Bool :=
  decide (pat.data <+: s.data)

/-- Truthiness of an optional JS string: `undefined`, `null` and `""` are falsy. -/
def jsStrTruthy : Option String → Bool
  | none => false
  | some s => s ≠ ""

/-! ## 4.1 Field Quality Classifier (`src/lib/nodes/SearchNode.js:1115-1161`) -/

/-- The placeholder patterns of `hasLowQualityEmail`. -/
def lowQualityEmailPatterns : List String :=
  ["@financialservic.com.fr", "@example.com", "@test.com", "@placeholder.com",
   "noreply@", "support@", "info@"]

/-- `hasLowQualityEmail(email)`: absent, or matching a placeholder pattern. -/
def hasLowQualityEmail (email : String) : Bool :=
  if email = "" then true
  else lowQualityEmailPatterns.any (fun pat => jsIncludes email pat)

/-- `hasLowQualityLinkedIn(linkedinUrl)`: absent, or not matching
`^https?:\/\/(www\.)?linkedin\.com\/in\//`.  The regex is anchored at the
start of the string, so `.test` holds exactly when the URL starts with one of
the four concrete prefixes. -/
def hasLowQualityLinkedIn (linkedinUrl : String) : Bool :=
  if linkedinUrl = "" then true
  else !(jsStartsWith linkedinUrl "https://linkedin.com/in/" ||
         jsStartsWith linkedinUrl "http://linkedin.com/in/" ||
         jsStartsWith linkedinUrl "https://www.linkedin.com/in/" ||
         jsStartsWith linkedinUrl "http://www.linkedin.com/in/")

/-- The generic company names of `hasLowQualityCompany`. -/
def genericCompanies : List String :=
  ["Financial Services Company", "Services Financiers Européens",
   "Group Financial Services", "Unknown Company", "Company", "Corporation"]

/-- `hasLowQualityCompany(company)`: absent, or exactly one of the generic names. -/
def hasLowQualityCompany (company : String) : Bool :=
  if company = "" then true
  else genericCompanies.contains company

/-! ## 4.2 Field Upgrade Decider (`src/lib/nodes/SearchNode.js:1171-1222`) -/

/-- `isEmailBetter(newEmail, currentEmail)`. -/
def isEmailBetter (newEmail currentEmail : String) : Bool :=
  if currentEmail = "" then true
  else if hasLowQualityEmail currentEmail && !hasLowQualityEmail newEmail then true
  else false

/-- `isLinkedInBetter(newLinkedIn, currentLinkedIn)`. -/
def isLinkedInBetter (newLinkedIn currentLinkedIn : String) : Bool :=
  if currentLinkedIn = "" then true
  else if hasLowQualityLinkedIn currentLinkedIn && !hasLowQualityLinkedIn newLinkedIn then true
  else false

/-- `isCompanyBetter(newCompany, currentCompany)`. -/
def isCompanyBetter (newCompany currentCompany : String) : Bool :=
  if currentCompany = "" then true
  else if hasLowQualityCompany currentCompany && !hasLowQualityCompany newCompany then true
  else false

/-- `isTitleBetter(newTitle, currentTitle)`. -/
def isTitleBetter (newTitle currentTitle : String) : Bool :=
  if currentTitle = "" || currentTitle = "Professional" then true
  else if newTitle.length > currentTitle.length && !(jsIncludes newTitle currentTitle) then true
  else false

/-! ## Data model -/

/-- A search-provider result (`{url, title, description}`). -/
structure SearchResult where
  url : String := ""
  title : String := ""
  description : String := ""
  deriving DecidableEq

/-- A `personality_sources` entry as built in
`src/lib/nodes/EnrichNode.js:419-436`. -/
structure SourceRec where
  url : String := ""
  title : String := ""
  scraped_successfully : Bool := false
  type : String := ""
  timestamp : String := ""
  deriving DecidableEq

/-- The JSON object produced by the model for the intelligence extraction,
before normalization: every key may be omitted (`none`). -/
structure ParsedAnalysis where
  current_projects : Option (List String) := none
  recent_developments : Option (List String) := none
  strategic_priorities : Option (List String) := none
  industry_involvement : Option (List String) := none
  company_context : Option (List String) := none
  competitive_intelligence : Option (List String) := none
  outreach_angles : Option (List String) := none
  recent_quotes_or_statements : Option (List String) := none
  summary : Option String := none
  intelligence_quality : Option String := none
  confidence_level : Option String := none
  deriving DecidableEq

/-- The `personality_analysis` object. A field is `none` when the
corresponding JS key is absent. `confidence_level` is carried because
`EnrichNode.js:452` reads it, although no construction path of
`generatePersonalitySummary` ever sets it. -/
structure Analysis where
  current_projects : Option (List String) := none
  recent_developments : Option (List String) := none
  strategic_priorities : Option (List String) := none
  industry_involvement : Option (List String) := none
  company_context : Option (List String) := none
  competitive_intelligence : Option (List String) := none
  outreach_angles : Option (List String) := none
  recent_quotes_or_statements : Option (List String) := none
  summary : Option String := none
  intelligence_quality : Option String := none
  confidence_level : Option String := none
  generated_at : Option String := none
  analyzed_at : Option String := none
  content_sources : Option Nat := none
  analysis_method : Option String := none
  error : Option String := none
  raw_response : Option String := none
  deriving DecidableEq

/-- The `personality_metadata` object built in `EnrichNode.js`. -/
structure PersonalityMetadata where
  analysis_completed : Bool := false
  ai_analysis_success : Bool := false
  processing_timestamp : String := ""
  error : Option String := none
  linkedin_urls_found : Option Nat := none
  linkedin_urls_kept_for_reference : Option Nat := none
  non_linkedin_sites_attempted : Option Nat := none
  content_sources_used : Option Nat := none
  analysis_method : Option String := none
  scraping_strategy : Option String := none
  deriving DecidableEq

/-- One entry of the validator's parsed `validations` JSON array. -/
structure LeadValidation where
  index : Int := 0
  is_valid_person : Bool := false
  reason : String := ""
  deriving DecidableEq

/-- Structured contact fields extracted from a RocketReach page
(`extractRocketReachContactInfo`); `""` models an absent field. -/
structure ContactInfo where
  email : String := ""
  linkedin_url : String := ""
  company : String := ""
  title : String := ""
  location : String := ""
  deriving DecidableEq

/-- A lead record. String contact fields use `""` for `undefined`/`null`
because the source only inspects them through truthiness and pattern tests. -/
structure Lead where
  name : String := ""
  title : String := ""
  company : String := ""
  email : String := ""
  linkedin_url : String := ""
  location : String := ""
  confidence_score : Option ℚ := none
  is_valid_person : Option Bool := none
  validation_reason : Option String := none
  personality_analysis : Option Analysis := none
  personality_sources : List SourceRec := []
  personality_metadata : Option PersonalityMetadata := none
  last_personality_analysis : Option String := none
  ready_for_outreach : Option Bool := none
  scraped_content : Option (List String) := none
  search_results : Option (List SearchResult) := none
  enrichment_sources : Option (List SourceRec) := none
  rocketreach_updated : Bool := false
  rocketreach_enriched : Bool := false
  rocketreach_attempted : Bool := false
  rocketreach_url : Option String := none
  rocketreach_update_timestamp : Option String := none
  rocketreach_updates : List String := []
  llm_enhanced : Bool := false
  deriving DecidableEq

/-! ## 4.3 Lead Deduplicator (`src/lib/nodes/SearchNode.js:791-801`) -/

/-- The composite key `` `${lead.email}_${lead.linkedin_url}` ``:
a single string, not a pair. -/
def leadKey (lead : Lead) : String :=
  lead.email ++ "_" ++ lead.linkedin_url

/-- The `filter` of `removeDuplicateLeads`, with the mutable `seen` set made
explicit: keep a lead exactly when its key has not been seen yet. -/
def dedupGo (seen : List String) : List Lead → List Lead
  | [] => []
  | l :: ls =>
    if leadKey l ∈ seen then dedupGo seen ls
    else l :: dedupGo (leadKey l :: seen) ls

/-- `removeDuplicateLeads(leads)`. -/
def removeDuplicateLeads (leads : List Lead) : List Lead :=
  dedupGo [] leads

/-! ## 4.4 Lead Validator (`src/lib/nodes/SearchNode.js:1411-1497`) -/

/-- The defaulting applied to a batch when the provider call or JSON parse
throws (`SearchNode.js:1480-1488`). -/
def markKeptByDefault (lead : Lead) : Lead :=
  { lead with is_valid_person := some true,
              validation_reason := some "Validation failed, kept by default" }

/-- Application of one parsed validation entry to a batch.  The JS guard is
`batchIndex >= 0 && batchIndex < batch.length && globalIndex < leads.length`;
since the batch is the slice starting at the global write base, the third
conjunct is implied by the second. -/
def applyValidation (batch : List Lead) (v : LeadValidation) : List Lead :=
  if h : 0 ≤ v.index ∧ v.index.toNat < batch.length then
    batch.set v.index.toNat
      { batch.get ⟨v.index.toNat, h.2⟩ with
          is_valid_person := some v.is_valid_person,
          validation_reason := some v.reason }
  else batch

/-- Processing of one batch of at most 10 leads: on a successful provider call
and parse the returned entries are applied; on a thrown error every lead of
the batch is kept by default. -/
def processBatch (res : Except String (List LeadValidation)) (batch : List Lead) :
    List Lead :=
  match res with
  | Except.error _ => batch.map markKeptByDefault
  | Except.ok vs => vs.foldl applyValidation batch

/-- The batch loop of `validateLeadsWithLLM` (`batchSize = 10`): the provider
oracle is indexed by the batch number.  All writes of a batch stay inside that
batch, so the loop is the concatenation of the per-batch results. -/
def validateGo (oracle : Nat → Except String (List LeadValidation)) :
    Nat → List Lead → List Lead
  | _, [] => []
  | k, l :: ls =>
    processBatch (oracle k) ((l :: ls).take 10) ++
      validateGo oracle (k + 1) ((l :: ls).drop 10)
termination_by _ l => l.length
decreasing_by simp [List.length_drop]; omega

/-- `validateLeadsWithLLM(leads)`, with the per-batch LLM call and JSON parse
combined into one `Except`-valued oracle.  The function is total: a failing
batch never escapes as an exception. -/
def validateLeadsWithLLM (oracle : Nat → Except String (List LeadValidation))
    (leads : List Lead) : List Lead :=
  validateGo oracle 0 leads

/-! ## 4.6 Intelligence Summarizer (`src/lib/nodes/EnrichNode.js:155-263`) -/

/-- The separator used to join the scraped contents. -/
def contentSeparator : String := "\n\n---\n\n"

/-- The context budget (`maxLength = 90000`). -/
def maxContextLength : Nat := 90000

/-- The trailing truncation marker. -/
def truncationMarker : String := "\n\n...[Content truncated to fit context limits]"

/-- The join-and-truncate step of `generatePersonalitySummary`
(`EnrichNode.js:159-166`): the model-bound content. -/
def combineAndTruncate (websiteContents : List String) : String :=
  let combinedContent := String.intercalate contentSeparator websiteContents
  if combinedContent.length > maxContextLength then
    jsSubstringTo combinedContent maxContextLength ++ truncationMarker
  else combinedContent

/-- JS `x || dflt` for an optional array value: only an absent key falls back
(an empty array is truthy). -/
def jsOrList (x : Option (List String)) (dflt : String) : List String :=
  match x with
  | some l => l
  | none => [dflt]

/-- JS `x || dflt` for an optional string value: an absent key or the empty
string falls back. -/
def jsOrStr (x : Option String) (dflt : String) : String :=
  match x with
  | some s => if s = "" then dflt else s
  | none => dflt

/-- The success-path normalization (`EnrichNode.js:213-227`): every category
key is back-filled with its category-specific placeholder when the model
omitted it. -/
def structuredAnalysis (analysis : ParsedAnalysis) (numSources : Nat)
    (now : String) : Analysis :=
  { current_projects :=
      some (jsOrList analysis.current_projects "No specific current projects identified"),
    recent_developments :=
      some (jsOrList analysis.recent_developments "No recent developments found"),
    strategic_priorities :=
      some (jsOrList analysis.strategic_priorities "No specific strategic priorities identified"),
    industry_involvement :=
      some (jsOrList analysis.industry_involvement "No recent industry involvement found"),
    company_context :=
      some (jsOrList analysis.company_context "No specific company context available"),
    competitive_intelligence :=
      some (jsOrList analysis.competitive_intelligence "Limited competitive intelligence available"),
    outreach_angles :=
      some (jsOrList analysis.outreach_angles "Standard industry discussion topics"),
    recent_quotes_or_statements :=
      some (jsOrList analysis.recent_quotes_or_statements "No recent quotes or statements found"),
    summary :=
      some (jsOrStr analysis.summary "Professional with limited recent public information available"),
    intelligence_quality :=
      some (jsOrStr analysis.intelligence_quality (jsOrStr analysis.confidence_level "low")),
    confidence_level := none,
    generated_at := some now,
    analyzed_at := none,
    content_sources := some numSources,
    analysis_method := some "competitive_intelligence_extraction",
    error := none,
    raw_response := none }

/-- The parse-failure placeholder shared by most categories. -/
def parseErrorPlaceholder : String := "Analysis parsing error - unable to extract information"

/-- The degraded object returned when `JSON.parse` throws
(`EnrichNode.js:235-251`). -/
def fallbackAnalysis (rawContent : String) (numSources : Nat)
    (now : String) : Analysis :=
  { current_projects := some [parseErrorPlaceholder],
    recent_developments := some [parseErrorPlaceholder],
    strategic_priorities := some [parseErrorPlaceholder],
    industry_involvement := some [parseErrorPlaceholder],
    company_context := some [parseErrorPlaceholder],
    competitive_intelligence := some [parseErrorPlaceholder],
    outreach_angles := some ["Standard professional outreach recommended"],
    recent_quotes_or_statements := some [parseErrorPlaceholder],
    summary := some "Competitive intelligence analysis could not be completed due to technical error",
    intelligence_quality := some "low",
    confidence_level := none,
    generated_at := some now,
    analyzed_at := none,
    content_sources := some numSources,
    analysis_method := some "fallback_error",
    error := some "JSON parsing failed",
    raw_response := some (jsSubstringTo rawContent 500) }

/-- The object returned when the provider call itself throws
(`EnrichNode.js:254-262`). -/
def providerErrorAnalysis (message : String) (now : String) : Analysis :=
  { error := some message,
    summary := some "Unable to extract competitive intelligence due to processing error",
    intelligence_quality := some "low",
    generated_at := some now }

/-- The raw model response together with the outcome of `JSON.parse` on it
(`none` models a parse exception). -/
structure LLMResponse where
  raw : String := ""
  parsed : Option ParsedAnalysis := none
  deriving DecidableEq

/-- The provider interface of the summarizer: the LLM call receives the
model-bound (already truncated) content; `now` supplies
`new Date().toISOString()`. -/
structure SummarizerOracle where
  llm : String → String → Except String LLMResponse
  now : String := ""

/-- `generatePersonalitySummary(name, websiteContents)`.  Total: both the
parse failure and the provider failure produce an error-flagged `Analysis`
instead of an exception. -/
def generatePersonalitySummary (oracle : SummarizerOracle) (name : String)
    (websiteContents : List String) : Analysis :=
  let combinedContent := combineAndTruncate websiteContents
  match oracle.llm name combinedContent with
  | Except.error message => providerErrorAnalysis message oracle.now
  | Except.ok response =>
    match response.parsed with
    | some analysis => structuredAnalysis analysis websiteContents.length oracle.now
    | none => fallbackAnalysis response.raw websiteContents.length oracle.now

/-! ## 4.7 Enrichment Orchestrator (`src/lib/nodes/EnrichNode.js:270-553`) -/

/-- A provider interaction issued while enriching one lead. -/
inductive ProviderCall where
  | search (name company : String)
  | fetch (url : String)
  | llm
  deriving DecidableEq

/-- The providers of the per-lead enrichment: `searchPersonWithJina` (already
including its internal query-widening and URL filtering), `getWebsiteContent`,
and the summarizer's LLM. -/
structure EnrichOracle where
  searchPerson : String → String → List SearchResult
  fetchContent : String → String
  summarizer : SummarizerOracle
  now : String := ""

/-- JS truthiness of `analysis.error`. -/
def analysisErrTruthy (a : Analysis) : Bool := jsStrTruthy a.error

/-- One stored content entry
(`Source: ${url}\nTitle: ${title || 'N/A'}\nContent: ${truncated}`), with the
per-source 50,000-character cap (`EnrichNode.js:356-357`). -/
def sourceContentEntry (w : SearchResult) (content : String) : String :=
  "Source: " ++ w.url ++ "\nTitle: " ++ (if w.title = "" then "N/A" else w.title) ++
    "\nContent: " ++
    (if content.length > 50000 then jsSubstringTo content 50000 ++ "...[truncated]"
     else content)

/-- The scraping loop over `websitesToScrape` (`EnrichNode.js:350-368`): fetch
each site, keep only substantial content (> 100 characters). -/
def scrapeSites (oracle : EnrichOracle) (sites : List SearchResult) :
    List String × List ProviderCall :=
  sites.foldl
    (fun acc w =>
      let content := oracle.fetchContent w.url
      (if content.length > 100 then acc.1 ++ [sourceContentEntry w content] else acc.1,
       acc.2 ++ [ProviderCall.fetch w.url]))
    ([], [])

/-- The additional-sites loop (`EnrichNode.js:372-389`): stop after the first
substantial fetch. -/
def scrapeAdditional (oracle : EnrichOracle) :
    List SearchResult → Option String × List ProviderCall
  | [] => (none, [])
  | w :: ws =>
    let content := oracle.fetchContent w.url
    if content.length > 100 then (some (sourceContentEntry w content), [ProviderCall.fetch w.url])
    else
      let rest := scrapeAdditional oracle ws
      (rest.1, ProviderCall.fetch w.url :: rest.2)

/-- The LinkedIn partition predicate (`EnrichNode.js:327-329`). -/
def isLinkedInResult (r : SearchResult) : Bool :=
  decide (r.url ≠ "") && jsIncludes r.url "linkedin.com"

/-- The scrapeable-candidate predicate (`EnrichNode.js:331-338`). -/
def isScrapeCandidate (r : SearchResult) : Bool :=
  decide (r.url ≠ "") && !jsIncludes r.url "linkedin.com" &&
    !jsIncludes r.url "/login" && !jsIncludes r.url "/signup" &&
    !jsIncludes r.url "auth" && !jsIncludes r.url "sign-in"

/-- Everything after content gathering: the additional-sites attempt, the
no-content failure record (`EnrichNode.js:391-410`) and the summarize-and-tag
step (`EnrichNode.js:412-454`), including the
`ready_for_outreach = !error && confidence_level !== 'low'` line. -/
def finishEnrichment (oracle : EnrichOracle) (lead : Lead)
    (linkedinUrls nonLinkedInWebsites websitesToScrape : List SearchResult)
    (websiteContents0 : List String) (calls0 : List ProviderCall) :
    Lead × List ProviderCall :=
  let step :=
    if websiteContents0.length < 2 ∧ nonLinkedInWebsites.length > 3 then
      let extra := scrapeAdditional oracle ((nonLinkedInWebsites.drop 3).take 2)
      (websiteContents0 ++ extra.1.toList, calls0 ++ extra.2)
    else (websiteContents0, calls0)
  let websiteContents := step.1
  let calls := step.2
  if websiteContents = [] then
    ({ lead with
        personality_analysis := some
          { error := some "No substantial content found for analysis (LinkedIn excluded)",
            analyzed_at := some oracle.now,
            analysis_method := some "failed" },
        personality_metadata := some
          { analysis_completed := false,
            ai_analysis_success := false,
            processing_timestamp := oracle.now,
            error := some "No scrapeable non-LinkedIn content found",
            linkedin_urls_found := some linkedinUrls.length,
            non_linkedin_sites_attempted := some websitesToScrape.length },
        ready_for_outreach := some false }, calls)
  else
    let personalityAnalysis :=
      generatePersonalitySummary oracle.summarizer lead.name websiteContents
    ({ lead with
        personality_analysis := some personalityAnalysis,
        personality_sources :=
          (linkedinUrls.take 1).map (fun w =>
            { url := w.url, title := w.title, scraped_successfully := false,
              type := "linkedin_reference", timestamp := oracle.now }) ++
          websitesToScrape.map (fun w =>
            { url := w.url, title := w.title, scraped_successfully := true,
              type := "scraped_content", timestamp := oracle.now }),
        last_personality_analysis := some oracle.now,
        personality_metadata := some
          { analysis_completed := true,
            linkedin_urls_found := some linkedinUrls.length,
            linkedin_urls_kept_for_reference := some (min linkedinUrls.length 1),
            non_linkedin_sites_attempted := some websitesToScrape.length,
            content_sources_used := some websiteContents.length,
            ai_analysis_success := !analysisErrTruthy personalityAnalysis,
            processing_timestamp := oracle.now,
            analysis_method := some (jsOrStr personalityAnalysis.analysis_method "web_scraping_chatgpt"),
            scraping_strategy := some "exclude_linkedin" },
        ready_for_outreach := some
          (!analysisErrTruthy personalityAnalysis &&
            !(personalityAnalysis.confidence_level == some "low")) },
     calls ++ [ProviderCall.llm])

/-- The analysis recorded when the search returns nothing
(`EnrichNode.js:317-323`). -/
def noSearchResultsAnalysis (now : String) : Analysis :=
  { error := some "No search results found", analyzed_at := some now }

/-- `enrichLeadWithPersonalityAnalysis(lead)`, with the provider calls it
issues recorded alongside the result. -/
def enrichLeadWithPersonalityAnalysis (oracle : EnrichOracle) (lead : Lead) :
    Lead × List ProviderCall :=
  match lead.personality_analysis with
  | some a =>
    if analysisErrTruthy a then enrichCore oracle lead else (lead, [])
  | none => enrichCore oracle lead
where
  /-- The body after the already-enriched skip check: content reuse
  (`EnrichNode.js:287-306`), the fresh search-and-scrape path
  (`EnrichNode.js:309-368`), then `finishEnrichment`. -/
  enrichCore (oracle : EnrichOracle) (lead : Lead) : Lead × List ProviderCall :=
    let websiteContents0 := lead.scraped_content.getD []
    if websiteContents0 = [] then
      let searchResults := oracle.searchPerson lead.name lead.company
      let calls0 := [ProviderCall.search lead.name lead.company]
      if searchResults = [] then
        ({ lead with personality_analysis := some (noSearchResultsAnalysis oracle.now) },
         calls0)
      else
        let linkedinUrls := searchResults.filter isLinkedInResult
        let nonLinkedInWebsites := searchResults.filter isScrapeCandidate
        let websitesToScrape := nonLinkedInWebsites.take 3
        let scraped := scrapeSites oracle websitesToScrape
        finishEnrichment oracle lead linkedinUrls nonLinkedInWebsites websitesToScrape
          scraped.1 (calls0 ++ scraped.2)
    else
      finishEnrichment oracle lead [] [] [] websiteContents0 []

/-- `needsEnrichment`: the `run` selection predicate
(`EnrichNode.js:515`): no analysis yet, or an analysis with an error. -/
def needsEnrichment (lead : Lead) : Bool :=
  match lead.personality_analysis with
  | none => true
  | some a => analysisErrTruthy a

/-- `lead.confidence_score || 0`. -/
def csOf (lead : Lead) : ℚ := lead.confidence_score.getD 0

/-- Insertion into a descending-confidence list (the comparator
`(b.confidence_score || 0) - (a.confidence_score || 0)`). -/
def insertDesc (l : Lead) : List Lead → List Lead
  | [] => [l]
  | x :: xs => if csOf x ≤ csOf l then l :: x :: xs else x :: insertDesc l xs

/-- The confidence sort of `run` (a comparison sort; JS `Array.sort` leaves
the order of ties unspecified). -/
def sortByConfidenceDesc (leads : List Lead) : List Lead :=
  leads.foldr insertDesc []

/-- The selection of `run` (`EnrichNode.js:513-517`): filter, sort by
confidence, take the top 10. -/
def selectLeadsToEnrich (leads : List Lead) : List Lead :=
  (sortByConfidenceDesc (leads.filter needsEnrichment)).take 10

/-! ## 4.8 Contact-Upgrade pass (`src/lib/nodes/SearchNode.js:946-1081`) -/

/-- The providers used for one lead of `updateExistingLeadsWithRocketReach`:
the results of `jinaSearch.search(` ``${name} rocket reach`` `, 3)` and the
outcome of `extractRocketReachContactInfo` (`none` = extraction failed). -/
structure RocketReachOracle where
  searchResults : List SearchResult
  contactInfo : Option ContactInfo := none
  now : String := ""

/-- `needsRocketReachUpdate(lead)` (`SearchNode.js:1072-1081`). -/
def needsRocketReachUpdate (lead : Lead) : Bool :=
  if lead.rocketreach_updated then false
  else
    hasLowQualityEmail lead.email || hasLowQualityLinkedIn lead.linkedin_url ||
      hasLowQualityCompany lead.company ||
      (lead.location = "" || lead.location = "Unknown")

/-- One conditional field upgrade of `SearchNode.js:992-1027`: when the guard
passes, apply the field update and push the human-readable diff string. -/
def upgradeStep (cond : Prop) [Decidable cond] (upd : Lead → Lead) (diff : String)
    (s : Lead × List String) : Lead × List String :=
  if cond then (upd s.1, s.2 ++ [diff]) else s

/-- The five field-upgrade checks of `SearchNode.js:992-1027`, applied in
order, together with the accumulated `updates` diff strings.  Each guard
reads the field it updates (no other step touches that field, so reading the
original lead is equivalent to the source's sequential mutation). -/
def applyContactUpdates (lead : Lead) (ci : ContactInfo) : Lead × List String :=
  (lead, [])
  |> upgradeStep (ci.email ≠ "" ∧ isEmailBetter ci.email lead.email = true)
       (fun l => { l with email := ci.email })
       ("📧 Email: " ++ lead.email ++ " → " ++ ci.email)
  |> upgradeStep (ci.linkedin_url ≠ "" ∧ isLinkedInBetter ci.linkedin_url lead.linkedin_url = true)
       (fun l => { l with linkedin_url := ci.linkedin_url })
       ("🔗 LinkedIn: " ++ (if lead.linkedin_url ≠ "" then "Updated" else "Added") ++
         " → " ++ ci.linkedin_url)
  |> upgradeStep (ci.company ≠ "" ∧ isCompanyBetter ci.company lead.company = true)
       (fun l => { l with company := ci.company })
       ("🏢 Company: " ++ lead.company ++ " → " ++ ci.company)
  |> upgradeStep (ci.title ≠ "" ∧ isTitleBetter ci.title lead.title = true)
       (fun l => { l with title := ci.title })
       ("💼 Title: " ++ lead.title ++ " → " ++ ci.title)
  |> upgradeStep (ci.location ≠ "" ∧ (lead.location = "" ∨ lead.location = "Unknown"))
       (fun l => { l with location := ci.location })
       ("📍 Location: " ++ (if lead.location = "" then "None" else lead.location) ++
         " → " ++ ci.location)

/-- The RocketReach-result filter of the update pass (`SearchNode.js:975-977`;
unlike the new-lead pass, it does not additionally check the name slug). -/
def isRocketReachResult (r : SearchResult) : Bool :=
  decide (r.url ≠ "") && jsIncludes r.url "rocketreach.co"

/-- The per-lead body of `updateExistingLeadsWithRocketReach`
(`SearchNode.js:959-1056`).  Note: when no RocketReach result is found, or
extraction fails, or no field passes the upgrade decider, the lead is
returned as is — no `attempted` marker of any kind is written in this pass. -/
def updateExistingLeadWithRocketReach (oracle : RocketReachOracle) (lead : Lead) :
    Lead :=
  let rocketReachResults := oracle.searchResults.filter isRocketReachResult
  match rocketReachResults with
  | [] => lead
  | bestResult :: _ =>
    match oracle.contactInfo with
    | none => lead
    | some ci =>
      let s := applyContactUpdates lead ci
      if s.2 = [] then s.1
      else
        { s.1 with
            rocketreach_updated := true,
            rocketreach_url := some bestResult.url,
            rocketreach_update_timestamp := some oracle.now,
            rocketreach_updates := s.2 }

/-- `updateExistingLeadsWithRocketReach(existingLeads)`: the pass applies the
per-lead body exactly to the leads selected by `needsRocketReachUpdate`
(`SearchNode.js:950`). -/
def updateExistingLeadsWithRocketReach (oracles : Lead → RocketReachOracle)
    (existingLeads : List Lead) : List Lead :=
  existingLeads.map fun lead =>
    if needsRocketReachUpdate lead then
      updateExistingLeadWithRocketReach (oracles lead) lead
    else lead

/-! ## Confidence-score updates (C10) -/

/-- One entry of the `enhanced_leads` JSON array parsed by
`enhanceBatchWithLLM` (`SearchNode.js:836-891`). -/
structure LeadEnhancement where
  index : Int := 0
  enhanced_title : String := ""
  enhanced_company : String := ""
  enhanced_location : String := ""
  relevance_score : Option ℚ := none
  deriving DecidableEq

/-- The per-lead application step of `enhanceBatchWithLLM`
(`SearchNode.js:881-888`): four guarded assignments to four distinct fields
(rendered field-wise; the source's sequential mutations are independent).
`Math.max` on an absent score yields `NaN` in JS; that case is modelled as
the score staying absent and lies outside every claim's hypothesis (which
requires a numeric score). -/
def applyEnhancement (lead : Lead) (e : LeadEnhancement) : Lead :=
  { lead with
      title := if e.enhanced_title ≠ "" then e.enhanced_title else lead.title,
      company := if e.enhanced_company ≠ "" then e.enhanced_company else lead.company,
      location := if e.enhanced_location ≠ "" then e.enhanced_location else lead.location,
      confidence_score :=
        match e.relevance_score with
        | some r =>
          if r ≠ 0 then lead.confidence_score.map (fun c => max c r)
          else lead.confidence_score
        | none => lead.confidence_score,
      llm_enhanced := true }

/-- The confidence-score line of `enrichLeadWithAdditionalInfo`
(`src/lib/llm-enricher.js:726`):
`confidence_score: Math.min(1.0, lead.confidence_score + 0.1)`. -/
def enrichLeadWithAdditionalInfoScore (lead : Lead) : Lead :=
  { lead with confidence_score := lead.confidence_score.map (fun c => min 1 (c + 1/10)) }

/-! ## Theorems -/

/-- C1: for each of email, LinkedIn URL and company, the upgrade decider
returns `false` whenever the current value is non-empty and not classified
low-quality (a good current value is never overwritten), and returns `true`
whenever the current value is low-quality and the candidate is not. -/
theorem upgradeDecider_monotone (cand cur : String) :
    (cur ≠ "" ∧ hasLowQualityEmail cur = false → isEmailBetter cand cur = false) ∧
    (hasLowQualityEmail cur = true ∧ hasLowQualityEmail cand = false →
      isEmailBetter cand cur = true) ∧
    (cur ≠ "" ∧ hasLowQualityLinkedIn cur = false → isLinkedInBetter cand cur = false) ∧
    (hasLowQualityLinkedIn cur = true ∧ hasLowQualityLinkedIn cand = false →
      isLinkedInBetter cand cur = true) ∧
    (cur ≠ "" ∧ hasLowQualityCompany cur = false → isCompanyBetter cand cur = false) ∧
    (hasLowQualityCompany cur = true ∧ hasLowQualityCompany cand = false →
      isCompanyBetter cand cur = true) := by
  by_cases hc : cur = "" <;>
    refine ⟨fun h => ?_, fun h => ?_, fun h => ?_, fun h => ?_, fun h => ?_, fun h => ?_⟩ <;>
    simp only [isEmailBetter, isLinkedInBetter, isCompanyBetter, hc, if_true, if_false] <;>
    first
      | exact absurd hc h.1
      | simp [h.1, h.2]

/-- Witness for C1: the spec's own scenario (placeholder-domain email upgraded
by a real one) and a non-downgrade instance for company. -/
theorem upgradeDecider_monotone_witness :
    isEmailBetter "jane.doe@acme.com" "jane@financialservic.com.fr" = true ∧
    isCompanyBetter "NewCo" "Microsoft" = false :=
  ⟨(upgradeDecider_monotone "jane.doe@acme.com" "jane@financialservic.com.fr").2.1
      (by constructor <;> decide),
   (upgradeDecider_monotone "NewCo" "Microsoft").2.2.2.2.1
      (by constructor <;> decide)⟩

/-! ### C7: deduplication -/

theorem dedupGo_sublist (seen : List String) (leads : List Lead) :
    (dedupGo seen leads).Sublist leads := by
  induction leads generalizing seen with
  | nil => simp [dedupGo]
  | cons l ls ih =>
    by_cases h : leadKey l ∈ seen
    · simpa [dedupGo, h] using (ih seen).cons l
    · simpa [dedupGo, h] using (ih (leadKey l :: seen)).cons₂ l

theorem dedupGo_filter_key (seen : List String) (leads : List Lead) (k : String) :
    (dedupGo seen leads).filter (fun l => decide (leadKey l = k)) =
      if k ∈ seen then []
      else (leads.filter (fun l => decide (leadKey l = k))).take 1 := by
  induction leads generalizing seen with
  | nil => simp [dedupGo]
  | cons l ls ih =>
    by_cases hseen : leadKey l ∈ seen
    · rw [dedupGo, if_pos hseen, ih seen]
      by_cases hk : k ∈ seen
      · simp [hk]
      · have hne : ¬(leadKey l = k) := fun he => hk (he ▸ hseen)
        simp [hk, List.filter_cons, hne]
    · rw [dedupGo, if_neg hseen]
      by_cases hkl : leadKey l = k
      · subst hkl
        have h1 : (dedupGo (leadKey l :: seen) ls).filter
            (fun x => decide (leadKey x = leadKey l)) = [] := by
          rw [ih (leadKey l :: seen)]
          simp
        rw [List.filter_cons_of_pos (by simp), h1,
          List.filter_cons_of_pos (by simp)]
        simp [hseen]
      · have hmem : (k ∈ leadKey l :: seen) ↔ k ∈ seen := by
          simp [List.mem_cons]
          exact fun he => absurd he.symm hkl
        rw [List.filter_cons_of_neg (by simpa using hkl), ih (leadKey l :: seen)]
        by_cases hk : k ∈ seen
        · simp [hk, hmem.mpr hk]
        · simp only [hmem, hk, if_false]
          simp [List.filter_cons, hkl]

/-- Lead `A` of the spec's dedup scenario. -/
def leadA : Lead :=
  { name := "Jane Doe", email := "jane@acme.com",
    linkedin_url := "https://linkedin.com/in/janedoe" }

/-- Lead `B` of the spec's dedup scenario. -/
def leadB : Lead :=
  { name := "Bob Roe", email := "bob@acme.com",
    linkedin_url := "https://linkedin.com/in/bobroe" }

/-- A lead whose underscore-joined key collides with `leadCollide2`'s. -/
def leadCollide1 : Lead := { email := "a_b", linkedin_url := "c" }

/-- A lead with a composite `(email, linkedin_url)` pair distinct from
`leadCollide1`'s but with the same concatenated key `"a_b_c"`. -/
def leadCollide2 : Lead := { email := "a", linkedin_url := "b_c" }

/-- Counterexample for C7: the deduplicator keys on the single string
`` `${email}_${linkedin_url}` ``, not on the `(email, linkedin_url)` pair, so
two leads with distinct composite pairs can collide: the first lead bearing
the key pair `("a", "b_c")` is dropped. -/
theorem removeDuplicateLeads_pair_counterexample :
    removeDuplicateLeads [leadCollide1, leadCollide2] = [leadCollide1] ∧
    (leadCollide1.email, leadCollide1.linkedin_url) ≠
      (leadCollide2.email, leadCollide2.linkedin_url) := by
  constructor <;> decide

/-- C7 (amended): keyed by the concatenated string
`` `${email}_${linkedin_url}` ``, the deduplicator keeps exactly the first
lead bearing each distinct string key and preserves the relative order of the
survivors; in particular `removeDuplicateLeads [A, A, B] = [A, B]`. -/
theorem removeDuplicateLeads_first_wins (leads : List Lead) (k : String) :
    (removeDuplicateLeads leads).Sublist leads ∧
    (removeDuplicateLeads leads).filter (fun l => decide (leadKey l = k)) =
      (leads.filter (fun l => decide (leadKey l = k))).take 1 ∧
    removeDuplicateLeads [leadA, leadA, leadB] = [leadA, leadB] := by
  refine ⟨dedupGo_sublist [] leads, ?_, by decide⟩
  simpa using dedupGo_filter_key [] leads k

/-! ### C3: validator failure containment -/

theorem applyValidation_length (batch : List Lead) (v : LeadValidation) :
    (applyValidation batch v).length = batch.length := by
  unfold applyValidation
  split <;> simp

theorem foldl_applyValidation_length (vs : List LeadValidation) (batch : List Lead) :
    (vs.foldl applyValidation batch).length = batch.length := by
  induction vs generalizing batch with
  | nil => rfl
  | cons v vs ih => rw [List.foldl_cons, ih, applyValidation_length]

theorem processBatch_length (res : Except String (List LeadValidation))
    (batch : List Lead) : (processBatch res batch).length = batch.length := by
  cases res with
  | error e => simp [processBatch]
  | ok vs => exact foldl_applyValidation_length vs batch

theorem processBatch_nil (res : Except String (List LeadValidation)) :
    processBatch res [] = [] := by
  have := processBatch_length res []
  exact List.length_eq_zero.mp this

theorem validateGo_nil (oracle : Nat → Except String (List LeadValidation)) (k : Nat) :
    validateGo oracle k [] = [] := by
  rw [validateGo]

theorem validateGo_cons (oracle : Nat → Except String (List LeadValidation)) (k : Nat)
    (l : Lead) (ls : List Lead) :
    validateGo oracle k (l :: ls) =
      processBatch (oracle k) ((l :: ls).take 10) ++
        validateGo oracle (k + 1) ((l :: ls).drop 10) := by
  rw [validateGo]

theorem validateGo_drop10 (oracle : Nat → Except String (List LeadValidation))
    (k : Nat) (leads : List Lead) :
    (validateGo oracle k leads).drop 10 = validateGo oracle (k + 1) (leads.drop 10) := by
  cases leads with
  | nil => simp [validateGo_nil]
  | cons l ls =>
    rw [validateGo_cons, List.drop_append_eq_append_drop]
    have hlen : (processBatch (oracle k) ((l :: ls).take 10)).length =
        min 10 (l :: ls).length := by
      rw [processBatch_length, List.length_take]
    have hA : (processBatch (oracle k) ((l :: ls).take 10)).drop 10 = [] :=
      List.drop_eq_nil_of_le (by rw [hlen]; omega)
    rw [hA, List.nil_append, hlen]
    rcases le_or_lt 10 (l :: ls).length with h | h
    · have : 10 - min 10 (l :: ls).length = 0 := by omega
      rw [this, List.drop_zero]
    · have h1 : (l :: ls).drop 10 = [] := List.drop_eq_nil_of_le (Nat.le_of_lt h)
      rw [h1, validateGo_nil, List.drop_nil]

theorem validateGo_drop_mul (oracle : Nat → Except String (List LeadValidation))
    (n k : Nat) (leads : List Lead) :
    (validateGo oracle k leads).drop (10 * n) =
      validateGo oracle (k + n) (leads.drop (10 * n)) := by
  induction n generalizing k leads with
  | zero => simp
  | succ m ih =>
    have h10 : 10 * (m + 1) = 10 * m + 10 := by ring
    rw [h10, ← List.drop_drop, ih, validateGo_drop10, List.drop_drop]
    have hk : k + (m + 1) = k + m + 1 := by omega
    rw [hk]

theorem validateGo_take10 (oracle : Nat → Except String (List LeadValidation))
    (k : Nat) (leads : List Lead) :
    (validateGo oracle k leads).take 10 = processBatch (oracle k) (leads.take 10) := by
  cases leads with
  | nil => simp [validateGo_nil, processBatch_nil]
  | cons l ls =>
    rw [validateGo_cons, List.take_append_eq_append_take]
    have hlen : (processBatch (oracle k) ((l :: ls).take 10)).length =
        min 10 (l :: ls).length := by
      rw [processBatch_length, List.length_take]
    have hA : (processBatch (oracle k) ((l :: ls).take 10)).take 10 =
        processBatch (oracle k) ((l :: ls).take 10) :=
      List.take_of_length_le (by rw [hlen]; omega)
    rw [hA, hlen]
    rcases le_or_lt 10 (l :: ls).length with h | h
    · have : 10 - min 10 (l :: ls).length = 0 := by omega
      rw [this, List.take_zero, List.append_nil]
    · have h1 : (l :: ls).drop 10 = [] := List.drop_eq_nil_of_le (Nat.le_of_lt h)
      rw [h1, validateGo_nil, List.take_nil, List.append_nil]

theorem validateGo_length (oracle : Nat → Except String (List LeadValidation)) :
    ∀ (m : Nat) (leads : List Lead), leads.length ≤ m → ∀ k,
      (validateGo oracle k leads).length = leads.length := by
  intro m
  induction m with
  | zero =>
    intro leads hle _
    cases leads with
    | nil => rw [validateGo_nil]
    | cons l ls => simp at hle
  | succ m ih =>
    intro leads hle k
    cases leads with
    | nil => rw [validateGo_nil]
    | cons l ls =>
      have hle10 : ((l :: ls).drop 10).length ≤ m := by
        simp only [List.length_drop, List.length_cons]
        simp only [List.length_cons] at hle
        omega
      rw [validateGo_cons, List.length_append, processBatch_length, List.length_take,
        ih ((l :: ls).drop 10) hle10 (k + 1)]
      simp
      omega

/-- C3: if the combined provider-call-and-parse oracle throws for batch `n`
(batches of 10), every lead of that batch in the output carries
`is_valid_person = true` and the default-kept reason.  `validateLeadsWithLLM`
is a total function: the failing batch is absorbed, never re-thrown. -/
theorem validateLeadsWithLLM_batch_failure
    (oracle : Nat → Except String (List LeadValidation)) (leads : List Lead)
    (n : Nat) (e : String) (h : oracle n = Except.error e) :
    (validateLeadsWithLLM oracle leads).length = leads.length ∧
    ∀ lead ∈ ((validateLeadsWithLLM oracle leads).drop (10 * n)).take 10,
      lead.is_valid_person = some true ∧
      lead.validation_reason = some "Validation failed, kept by default" := by
  constructor
  · exact validateGo_length oracle leads.length leads le_rfl 0
  · intro lead hmem
    have heq : ((validateLeadsWithLLM oracle leads).drop (10 * n)).take 10 =
        (((leads.drop (10 * n)).take 10).map markKeptByDefault) := by
      show ((validateGo oracle 0 leads).drop (10 * n)).take 10 = _
      rw [validateGo_drop_mul, Nat.zero_add, validateGo_take10, h]
      rfl
    rw [heq] at hmem
    rcases List.mem_map.mp hmem with ⟨x, _, hx⟩
    rw [← hx]
    exact ⟨rfl, rfl⟩

/-- Oracle that always throws, for the C3 witness. -/
def throwingValidationOracle : Nat → Except String (List LeadValidation) :=
  fun _ => Except.error "LLM provider unavailable"

/-- Witness for C3: on a concrete 3-lead batch with a throwing provider, the
defaulted lead appearing in the output batch carries `is_valid_person = true`
and the default-kept reason. -/
theorem validateLeadsWithLLM_batch_failure_witness :
    (markKeptByDefault leadA).is_valid_person = some true ∧
    (markKeptByDefault leadA).validation_reason =
      some "Validation failed, kept by default" :=
  have hmem : markKeptByDefault leadA ∈
      ((validateLeadsWithLLM throwingValidationOracle
        [leadA, leadB, leadCollide1]).drop (10 * 0)).take 10 := by
    have heq : ((validateLeadsWithLLM throwingValidationOracle
        [leadA, leadB, leadCollide1]).drop (10 * 0)).take 10 =
          [markKeptByDefault leadA, markKeptByDefault leadB,
           markKeptByDefault leadCollide1] := by
      show ((validateGo _ 0 _).drop (10 * 0)).take 10 = _
      rw [validateGo_drop_mul, validateGo_take10]
      rfl
    rw [heq]
    exact List.mem_cons_self _ _
  (validateLeadsWithLLM_batch_failure throwingValidationOracle
      [leadA, leadB, leadCollide1] 0 "LLM provider unavailable" rfl).2
    (markKeptByDefault leadA) hmem

/-! ### C5: summarizer truncation safety -/

theorem jsSubstringTo_length (s : String) (n : Nat) :
    (jsSubstringTo s n).length = min n s.length := by
  show (s.data.take n).length = _
  simp [List.length_take]

/-- C5: the model-bound content of the summarizer.  If the joined content
exceeds the 90,000-character budget it is cut to exactly the budget and the
fixed truncation marker is appended, so its length is budget + marker length;
content at or under the budget passes through unmodified; in every case the
length is bounded by budget + marker length.  `combineAndTruncate` (and
`generatePersonalitySummary`, which applies the LLM oracle to it) are total
functions: over-long input cannot raise. -/
theorem generatePersonalitySummary_truncation (websiteContents : List String) :
    ((String.intercalate contentSeparator websiteContents).length > maxContextLength →
      combineAndTruncate websiteContents =
        jsSubstringTo (String.intercalate contentSeparator websiteContents)
          maxContextLength ++ truncationMarker ∧
      (combineAndTruncate websiteContents).length =
        maxContextLength + truncationMarker.length) ∧
    ((String.intercalate contentSeparator websiteContents).length ≤ maxContextLength →
      combineAndTruncate websiteContents =
        String.intercalate contentSeparator websiteContents) ∧
    (combineAndTruncate websiteContents).length ≤
      maxContextLength + truncationMarker.length := by
  by_cases hlong :
      (String.intercalate contentSeparator websiteContents).length > maxContextLength
  · have heq : combineAndTruncate websiteContents =
        jsSubstringTo (String.intercalate contentSeparator websiteContents)
          maxContextLength ++ truncationMarker := by
      rw [combineAndTruncate]
      simp only [hlong, if_true]
    have hlen : (combineAndTruncate websiteContents).length =
        maxContextLength + truncationMarker.length := by
      rw [heq]
      simp only [String.length_append, jsSubstringTo_length]
      omega
    exact ⟨fun _ => ⟨heq, hlen⟩, fun hle => absurd hlong (by omega), le_of_eq hlen⟩
  · have heq : combineAndTruncate websiteContents =
        String.intercalate contentSeparator websiteContents := by
      rw [combineAndTruncate]
      simp only [hlong, if_false]
    refine ⟨fun hgt => absurd hgt hlong, fun _ => heq, ?_⟩
    rw [heq]
    omega

/-- A 90,001-character content string, one over the budget. -/
def overBudgetContent : String := ⟨List.replicate 90001 'a'⟩

theorem overBudgetContent_length : overBudgetContent.length = 90001 := by
  show (List.replicate 90001 'a').length = 90001
  rw [List.length_replicate]

theorem intercalate_overBudget :
    String.intercalate contentSeparator [overBudgetContent] = overBudgetContent := by
  simp [String.intercalate, String.intercalate.go]

/-- Witness for C5: a one-over-budget input is truncated to exactly
budget + marker length, and a small input passes through unmodified. -/
theorem generatePersonalitySummary_truncation_witness :
    (String.intercalate contentSeparator [overBudgetContent]).length >
      maxContextLength ∧
    (combineAndTruncate [overBudgetContent]).length =
      maxContextLength + truncationMarker.length ∧
    combineAndTruncate ["ab", "cd"] = "ab\n\n---\n\ncd" := by
  have hlong : (String.intercalate contentSeparator [overBudgetContent]).length >
      maxContextLength := by
    rw [intercalate_overBudget, overBudgetContent_length]
    simp [maxContextLength]
  refine ⟨hlong,
    ((generatePersonalitySummary_truncation [overBudgetContent]).1 hlong).2, ?_⟩
  have h2 := (generatePersonalitySummary_truncation ["ab", "cd"]).2.1 (by decide)
  rw [h2]
  rfl

/-! ### C6: summarizer output contract -/

/-- Counterexample for C6: on JSON parse failure, not every category is set
to the parsing-error placeholder — `outreach_angles` is set to the generic
recommendation "Standard professional outreach recommended" instead
(`EnrichNode.js:242`). -/
theorem fallbackAnalysis_outreach_counterexample :
    (fallbackAnalysis "not json" 2 "t").outreach_angles =
      some ["Standard professional outreach recommended"] ∧
    ["Standard professional outreach recommended"] ≠ [parseErrorPlaceholder] :=
  ⟨rfl, by decide⟩

/-- C6 (amended): on successful JSON parse every category key is present and
every omitted key is back-filled with its category-appropriate placeholder;
on parse failure a degraded object is returned (not thrown) whose seven
informational categories carry the parsing-error placeholder, whose
`outreach_angles` carries the fixed generic recommendation, with
`intelligence_quality = "low"`, an `error` field, and the raw model response
truncated to 500 characters attached. -/
theorem summarizer_output_contract (p : ParsedAnalysis) (n : Nat) (now raw : String) :
    ((structuredAnalysis p n now).current_projects.isSome = true ∧
     (structuredAnalysis p n now).recent_developments.isSome = true ∧
     (structuredAnalysis p n now).strategic_priorities.isSome = true ∧
     (structuredAnalysis p n now).industry_involvement.isSome = true ∧
     (structuredAnalysis p n now).company_context.isSome = true ∧
     (structuredAnalysis p n now).competitive_intelligence.isSome = true ∧
     (structuredAnalysis p n now).outreach_angles.isSome = true ∧
     (structuredAnalysis p n now).recent_quotes_or_statements.isSome = true) ∧
    ((p.current_projects = none → (structuredAnalysis p n now).current_projects =
        some ["No specific current projects identified"]) ∧
     (p.recent_developments = none → (structuredAnalysis p n now).recent_developments =
        some ["No recent developments found"]) ∧
     (p.strategic_priorities = none → (structuredAnalysis p n now).strategic_priorities =
        some ["No specific strategic priorities identified"]) ∧
     (p.industry_involvement = none → (structuredAnalysis p n now).industry_involvement =
        some ["No recent industry involvement found"]) ∧
     (p.company_context = none → (structuredAnalysis p n now).company_context =
        some ["No specific company context available"]) ∧
     (p.competitive_intelligence = none →
        (structuredAnalysis p n now).competitive_intelligence =
          some ["Limited competitive intelligence available"]) ∧
     (p.outreach_angles = none → (structuredAnalysis p n now).outreach_angles =
        some ["Standard industry discussion topics"]) ∧
     (p.recent_quotes_or_statements = none →
        (structuredAnalysis p n now).recent_quotes_or_statements =
          some ["No recent quotes or statements found"])) ∧
    ((fallbackAnalysis raw n now).current_projects = some [parseErrorPlaceholder] ∧
     (fallbackAnalysis raw n now).recent_developments = some [parseErrorPlaceholder] ∧
     (fallbackAnalysis raw n now).strategic_priorities = some [parseErrorPlaceholder] ∧
     (fallbackAnalysis raw n now).industry_involvement = some [parseErrorPlaceholder] ∧
     (fallbackAnalysis raw n now).company_context = some [parseErrorPlaceholder] ∧
     (fallbackAnalysis raw n now).competitive_intelligence = some [parseErrorPlaceholder] ∧
     (fallbackAnalysis raw n now).recent_quotes_or_statements = some [parseErrorPlaceholder] ∧
     (fallbackAnalysis raw n now).outreach_angles =
        some ["Standard professional outreach recommended"] ∧
     (fallbackAnalysis raw n now).intelligence_quality = some "low" ∧
     (fallbackAnalysis raw n now).error = some "JSON parsing failed" ∧
     (fallbackAnalysis raw n now).raw_response = some (jsSubstringTo raw 500)) := by
  refine ⟨?_, ?_, ?_⟩
  · simp [structuredAnalysis]
  · refine ⟨fun h => ?_, fun h => ?_, fun h => ?_, fun h => ?_, fun h => ?_,
      fun h => ?_, fun h => ?_, fun h => ?_⟩ <;>
      simp [structuredAnalysis, jsOrList, h]
  · exact ⟨rfl, rfl, rfl, rfl, rfl, rfl, rfl, rfl, rfl, rfl, rfl⟩

/-- Witness for C6: a model reply omitting every key is fully back-filled,
and a concrete parse failure carries quality "low". -/
theorem summarizer_output_contract_witness :
    (structuredAnalysis {} 1 "t").current_projects =
      some ["No specific current projects identified"] ∧
    (fallbackAnalysis "oops" 1 "t").intelligence_quality = some "low" :=
  ⟨(summarizer_output_contract {} 1 "t" "oops").2.1.1 rfl,
   (summarizer_output_contract {} 1 "t" "oops").2.2.2.2.2.2.2.2.2.2.1⟩

/-! ### C2: `ready_for_outreach` vs intelligence quality -/

/-- A model reply that parses successfully and reports the lowest
intelligence quality. -/
def lowQualityParsed : ParsedAnalysis := { intelligence_quality := some "low" }

/-- A 150-character page body (over the 100-character substantiality floor). -/
def substantialPage : String := ⟨List.replicate 150 'x'⟩

/-- Providers for the C2 run: one scrapeable search result, substantial page
content, and an LLM that returns valid JSON with quality "low". -/
def c2Oracle : EnrichOracle :=
  { searchPerson := fun _ _ =>
      [{ url := "https://news.example.com/article", title := "Article" }],
    fetchContent := fun _ => substantialPage,
    summarizer :=
      { llm := fun _ _ => Except.ok { raw := "ok", parsed := some lowQualityParsed },
        now := "t" },
    now := "t" }

/-- The C2 lead: fresh, no prior analysis. -/
def c2Lead : Lead := { name := "Jane Doe", company := "Acme" }

/-- C2 fails on the code (code bug): enriching a lead whose summarization
succeeds (no error) with `intelligence_quality = "low"` sets
`ready_for_outreach = true`, because `EnrichNode.js:452` tests
`personalityAnalysis.confidence_level !== 'low'` — a field no path of
`generatePersonalitySummary` ever sets (the schema renamed it to
`intelligence_quality`, cf. `EnrichNode.js:223`), so the quality test is
vacuously true.  The spec requires `ready_for_outreach = false` here. -/
theorem enrichment_ready_flag_ignores_low_quality :
    ((enrichLeadWithPersonalityAnalysis c2Oracle c2Lead).1.personality_analysis.map
        Analysis.error) = some none ∧
    ((enrichLeadWithPersonalityAnalysis c2Oracle c2Lead).1.personality_analysis.map
        Analysis.intelligence_quality) = some (some "low") ∧
    ((enrichLeadWithPersonalityAnalysis c2Oracle c2Lead).1.personality_analysis.map
        Analysis.confidence_level) = some none ∧
    (enrichLeadWithPersonalityAnalysis c2Oracle c2Lead).1.ready_for_outreach =
      some true := by
  refine ⟨?_, ?_, ?_, ?_⟩ <;>
    · set_option maxRecDepth 4000 in decide

/-! ### C4: idempotence of re-running on an already-enriched lead -/

theorem mem_insertDesc (x y : Lead) (l : List Lead) :
    x ∈ insertDesc y l ↔ x = y ∨ x ∈ l := by
  induction l with
  | nil => simp [insertDesc]
  | cons a as ih =>
    by_cases h : csOf a ≤ csOf y
    · simp [insertDesc, h]
    · simp [insertDesc, h, ih]
      tauto

theorem mem_sortByConfidenceDesc (x : Lead) (l : List Lead) :
    x ∈ sortByConfidenceDesc l ↔ x ∈ l := by
  induction l with
  | nil => simp [sortByConfidenceDesc]
  | cons a as ih =>
    simp only [sortByConfidenceDesc, List.foldr_cons] at *
    rw [mem_insertDesc, ih]
    simp

/-- C4: a lead already carrying an error-free `personality_analysis` is
returned by the per-lead enrichment function exactly as it was, with no
search, content-fetch, or LLM call issued, and is excluded from the set of
leads `run` selects for enrichment. -/
theorem enrichment_skip_idempotent (oracle : EnrichOracle) (lead : Lead)
    (a : Analysis) (h1 : lead.personality_analysis = some a)
    (h2 : jsStrTruthy a.error = false) :
    enrichLeadWithPersonalityAnalysis oracle lead = (lead, []) ∧
    ∀ leads : List Lead, lead ∉ selectLeadsToEnrich leads := by
  constructor
  · rw [enrichLeadWithPersonalityAnalysis, h1]
    simp [analysisErrTruthy, h2]
  · intro leads hmem
    have h3 : lead ∈ sortByConfidenceDesc (leads.filter needsEnrichment) :=
      List.take_subset 10 _ hmem
    have h4 : lead ∈ leads.filter needsEnrichment :=
      (mem_sortByConfidenceDesc _ _).mp h3
    have h5 : needsEnrichment lead = true := (List.mem_filter.mp h4).2
    rw [needsEnrichment, h1] at h5
    simp only [analysisErrTruthy, h2] at h5
    exact Bool.false_ne_true h5

/-- A fully offline oracle (used only to instantiate witnesses). -/
def offlineOracle : EnrichOracle :=
  { searchPerson := fun _ _ => [],
    fetchContent := fun _ => "",
    summarizer := { llm := fun _ _ => Except.error "offline", now := "t" },
    now := "t" }

/-- A lead that already carries a successful analysis. -/
def doneLead : Lead :=
  { name := "Jane Doe", company := "Acme",
    personality_analysis := some (structuredAnalysis {} 1 "t"),
    ready_for_outreach := some true }

/-- Witness for C4: re-running on the already-enriched `doneLead` returns it
unchanged with zero provider calls, and `run`'s selection skips it. -/
theorem enrichment_skip_idempotent_witness :
    enrichLeadWithPersonalityAnalysis offlineOracle doneLead = (doneLead, []) ∧
    doneLead ∉ selectLeadsToEnrich [doneLead] :=
  have h := enrichment_skip_idempotent offlineOracle doneLead
    (structuredAnalysis {} 1 "t") rfl rfl
  ⟨h.1, h.2 [doneLead]⟩

/-! ### C8: sources across enrichment passes -/

/-- A source recorded by an earlier enrichment pass. -/
def priorSource : SourceRec :=
  { url := "https://old.example.com", title := "Old",
    scraped_successfully := true, type := "scraped_content", timestamp := "t0" }

/-- A lead entering a new pass with a source from an earlier pass and with
reusable scraped content. -/
def reuseLead : Lead :=
  { name := "Jane Doe", personality_sources := [priorSource],
    scraped_content := some ["previously scraped body"] }

/-- Counterexample for C8: an enrichment pass over `reuseLead` (which reuses
its stored scraped content) rebuilds `personality_sources` from this pass's
LinkedIn/scraped partitions — both empty here — so the earlier entry
`priorSource` is removed, not preserved. -/
theorem enrichment_sources_replaced_counterexample :
    reuseLead.personality_sources = [priorSource] ∧
    (enrichLeadWithPersonalityAnalysis offlineOracle reuseLead).1.personality_sources
      = [] :=
  ⟨rfl, by decide⟩

/-- C8 (amended): `personality_sources` is not append-only — a pass that
reaches the summarization stage overwrites it with exactly the sources
gathered in that pass; in a content-reuse pass the LinkedIn and scraped
partitions are empty, so the list is overwritten with `[]`, dropping every
entry from earlier passes. -/
theorem enrichment_pass_replaces_sources (oracle : EnrichOracle) (lead : Lead)
    (h1 : needsEnrichment lead = true) (h2 : lead.scraped_content.getD [] ≠ []) :
    (enrichLeadWithPersonalityAnalysis oracle lead).1.personality_sources = [] := by
  have hcore :
      (enrichLeadWithPersonalityAnalysis.enrichCore oracle lead).1.personality_sources
        = [] := by
    rw [enrichLeadWithPersonalityAnalysis.enrichCore]
    simp only [if_neg h2, finishEnrichment]
    simp [h2]
  rw [enrichLeadWithPersonalityAnalysis]
  cases hpa : lead.personality_analysis with
  | none => exact hcore
  | some a =>
    rw [needsEnrichment, hpa] at h1
    change analysisErrTruthy a = true at h1
    change (if analysisErrTruthy a = true then
        enrichLeadWithPersonalityAnalysis.enrichCore oracle lead
      else (lead, [])).1.personality_sources = []
    rw [if_pos h1]
    exact hcore

/-- Witness for C8 (amended): the content-reuse pass on `reuseLead` ends with
an empty source list. -/
theorem enrichment_pass_replaces_sources_witness :
    (enrichLeadWithPersonalityAnalysis offlineOracle reuseLead).1.personality_sources
      = [] :=
  enrichment_pass_replaces_sources offlineOracle reuseLead rfl (by decide)

/-! ### C9: contact-upgrade pass frame behavior -/

theorem upgradeStep_nil (cond : Prop) [Decidable cond] (upd : Lead → Lead)
    (diff : String) (s : Lead × List String)
    (h : (upgradeStep cond upd diff s).2 = []) :
    (upgradeStep cond upd diff s).1 = s.1 ∧ s.2 = [] := by
  unfold upgradeStep at h ⊢
  split_ifs at h ⊢ with hc
  · simp at h
  · exact ⟨rfl, h⟩

theorem applyContactUpdates_nil (lead : Lead) (ci : ContactInfo)
    (h : (applyContactUpdates lead ci).2 = []) :
    (applyContactUpdates lead ci).1 = lead := by
  unfold applyContactUpdates at h ⊢
  obtain ⟨e5, h4⟩ := upgradeStep_nil _ _ _ _ h
  obtain ⟨e4, h3⟩ := upgradeStep_nil _ _ _ _ h4
  obtain ⟨e3, h2⟩ := upgradeStep_nil _ _ _ _ h3
  obtain ⟨e2, h1⟩ := upgradeStep_nil _ _ _ _ h2
  obtain ⟨e1, _⟩ := upgradeStep_nil _ _ _ _ h1
  rw [e5, e4, e3, e2, e1]

/-- A stored lead with a low-quality (generic) email, selected by
`needsRocketReachUpdate`. -/
def staleLead : Lead :=
  { name := "Bob Roe", email := "info@test.com",
    linkedin_url := "https://linkedin.com/in/bobroe", company := "Acme",
    title := "CTO", location := "Paris" }

/-- A search outcome containing no RocketReach profile. -/
def noProfileOracle : RocketReachOracle :=
  { searchResults := [{ url := "https://example.com/bob", title := "Bob" }],
    contactInfo := none, now := "t1" }

/-- Counterexample for C9: when no RocketReach profile is found for a
selected lead, the update pass leaves the lead byte-for-byte unchanged — in
particular it sets no "attempted" marker of any kind — so
`needsRocketReachUpdate` still selects the same lead on the next pass,
contradicting "marked as attempted, so a subsequent pass does not select it
for retry". -/
theorem contactUpgrade_not_marked_attempted_counterexample :
    needsRocketReachUpdate staleLead = true ∧
    updateExistingLeadWithRocketReach noProfileOracle staleLead = staleLead ∧
    needsRocketReachUpdate
      (updateExistingLeadWithRocketReach noProfileOracle staleLead) = true := by
  refine ⟨by decide, by decide, by decide⟩

/-- C9 (amended): in the contact-upgrade pass, whenever no RocketReach result
is found, or contact extraction fails, or extraction yields no field that
passes the upgrade decider, the lead is returned exactly as it was — contact
fields unchanged — but no "attempted" flag is recorded, so
`needsRocketReachUpdate` gives the same verdict on the unchanged lead and a
subsequent pass selects it again. -/
theorem contactUpgrade_frame (oracle : RocketReachOracle) (lead : Lead) :
    (oracle.searchResults.filter isRocketReachResult = [] →
      updateExistingLeadWithRocketReach oracle lead = lead) ∧
    (oracle.contactInfo = none →
      updateExistingLeadWithRocketReach oracle lead = lead) ∧
    (∀ ci, oracle.contactInfo = some ci → (applyContactUpdates lead ci).2 = [] →
      updateExistingLeadWithRocketReach oracle lead = lead) ∧
    (updateExistingLeadWithRocketReach oracle lead = lead →
      needsRocketReachUpdate (updateExistingLeadWithRocketReach oracle lead) =
        needsRocketReachUpdate lead) := by
  refine ⟨fun h => ?_, fun h => ?_, fun ci hci hnil => ?_, fun h => by rw [h]⟩
  · simp only [updateExistingLeadWithRocketReach, h]
  · cases hfil : oracle.searchResults.filter isRocketReachResult with
    | nil => simp only [updateExistingLeadWithRocketReach, hfil]
    | cons b bs => simp only [updateExistingLeadWithRocketReach, hfil, h]
  · cases hfil : oracle.searchResults.filter isRocketReachResult with
    | nil => simp only [updateExistingLeadWithRocketReach, hfil]
    | cons b bs =>
      simp only [updateExistingLeadWithRocketReach, hfil, hci]
      rw [if_pos hnil]
      exact applyContactUpdates_nil lead ci hnil

/-- Witness for C9 (amended): the no-profile case on a concrete lead. -/
theorem contactUpgrade_frame_witness :
    updateExistingLeadWithRocketReach noProfileOracle leadB = leadB :=
  (contactUpgrade_frame noProfileOracle leadB).1 (by decide)

/-! ### C10: confidence-score monotonicity -/

/-- C10: for a lead whose confidence score is a number in `[0, 1]`, neither
enrichment operation decreases it: the LLM enhancement writes
`max(old, relevance_score)` (or leaves the score alone when the model gives
no truthy score), and additional-info enrichment writes
`min(1, old + 0.1) ≥ old`. -/
theorem confidence_score_monotone (lead : Lead) (e : LeadEnhancement) (c : ℚ)
    (h1 : lead.confidence_score = some c) (_h2 : 0 ≤ c) (h3 : c ≤ 1) :
    (∀ c', (applyEnhancement lead e).confidence_score = some c' → c ≤ c') ∧
    (applyEnhancement lead e).confidence_score.isSome = true ∧
    (enrichLeadWithAdditionalInfoScore lead).confidence_score =
      some (min 1 (c + 1/10)) ∧
    c ≤ min 1 (c + 1/10) := by
  have hcs : (applyEnhancement lead e).confidence_score =
      match e.relevance_score with
      | some r => if r ≠ 0 then lead.confidence_score.map (fun x => max x r)
                  else lead.confidence_score
      | none => lead.confidence_score := rfl
  have hmin : c ≤ min 1 (c + 1/10) := by
    apply le_min h3
    linarith
  refine ⟨?_, ?_, ?_, hmin⟩
  · intro c' hc'
    rw [hcs, h1] at hc'
    cases hrel : e.relevance_score with
    | none =>
      rw [hrel] at hc'
      exact le_of_eq (Option.some.inj hc')
    | some r =>
      rw [hrel] at hc'
      change (if r ≠ 0 then Option.map (fun x => max x r) (some c) else some c)
          = some c' at hc'
      split_ifs at hc' with hr
      · rw [show Option.map (fun x => max x r) (some c) = some (max c r) from rfl]
          at hc'
        rw [← Option.some.inj hc']
        exact le_max_left c r
      · exact le_of_eq (Option.some.inj hc')
  · rw [hcs, h1]
    cases e.relevance_score with
    | none => rfl
    | some r =>
      change (if r ≠ 0 then Option.map (fun x => max x r) (some c)
          else some c).isSome = true
      split_ifs <;> rfl
  · rw [enrichLeadWithAdditionalInfoScore, h1]
    rfl

/-- A lead with a mid-range confidence score. -/
def scoredLead : Lead := { name := "Jane Doe", confidence_score := some (1/2) }

/-- An enhancement carrying a relevance score of 0.85. -/
def sampleEnhancement : LeadEnhancement :=
  { enhanced_title := "Head of Payments", relevance_score := some (17/20) }

/-- Witness for C10 at score 0.5 and relevance 0.85. -/
theorem confidence_score_monotone_witness :
    (applyEnhancement scoredLead sampleEnhancement).confidence_score.isSome = true ∧
    (enrichLeadWithAdditionalInfoScore scoredLead).confidence_score =
      some (min 1 (1/2 + 1/10)) ∧
    (1/2 : ℚ) ≤ min 1 (1/2 + 1/10) :=
  have h := confidence_score_monotone scoredLead sampleEnhancement (1/2) rfl
    (by norm_num) (by norm_num)
  ⟨h.2.1, h.2.2.1, h.2.2.2⟩

end JimDwight
